import Mathlib

/-!
Shallow embedding of the statement-execution core of the `gosnowflake`
driver (`connection.go`, `driver.go`, `statement.go`) and proofs of the
specification claims about it.

Conventions of the embedding:
* Go machine integers are modelled as `Int`/`Nat` with explicit wraparound
  (`% 2^64`) where the source uses fixed-width arithmetic
  (`uint64` sequence counter, `int64` row counts).
* Fallible Go code returning `(T, error)` is modelled with explicit sum
  types; a Go runtime panic (nil-pointer dereference, index out of range,
  method call on a nil `error` interface) is the distinguished outcome
  `panic` of the `GoOutcome` type.
* External collaborators (HTTP transport, JSON decoding) are modelled as
  oracle arguments: the decoded server response (or the transport error)
  is an input of the model.
* Go `map[string]T` values written with distinct or overwriting keys are
  modelled as association lists with an overwriting insert.
-/

set_option autoImplicit false

namespace Gosnowflake

/-- Outcome of a Go computation: a runtime panic, an `error` return, or a
normal value. -/
inductive GoOutcome (ε : Type) (α : Type) where
  | panic
  | err (e : ε)
  | ok (a : α)
  deriving Repr, DecidableEq

/-- StructuredError surfaced across the public boundary: `SnowflakeError`
in the source (`errors.go` declares the struct; its shape is given by the
spec's `StructuredError`: numeric code, SQL state, message, query id). -/
structure SnowflakeError where
  Number : Int
  SQLState : String
  Message : String
  QueryID : String
  deriving Repr, DecidableEq

/-- Modelled from the spec: the numeric code and SQL state used by
`BeginTx` for read-only transactions.  `errors.go` is not part of the
sources; the spec only requires a feature-not-supported `StructuredError`,
so the constants are distinct placeholders. -/
def ErrNoReadOnlyTransaction : Int := 261001

/-- Modelled from the spec: numeric code for a non-default transaction
isolation level (see `ErrNoReadOnlyTransaction`). -/
def ErrNoDefaultTransactionIsolationLevel : Int := 261002

/-- Modelled from the spec: the feature-not-supported SQL state. -/
def SQLStateFeatureNotSupported : String := "0A000"

/-- Modelled from the spec: message placeholder for read-only rejection. -/
def errMsgNoReadOnlyTransaction : String := "no readonly mode is supported"

/-- Modelled from the spec: message placeholder for isolation rejection. -/
def errMsgNoDefaultTransactionIsolationLevel : String :=
  "no default isolation transaction level is supported"

/-- Go `error` values crossing the modelled boundary. -/
inductive GoError where
  | snowflake (e : SnowflakeError)
  | badConn
  | parseError (input : String)
  | transport (msg : String)
  | decode (msg : String)
  | typeInference (msg : String)
  deriving Repr, DecidableEq

/-! ### Model of the Go `strconv` functions used by the source -/

/-- Numeric value of a list of ASCII digit characters, `none` when the
list is empty or holds a non-digit (Go `strconv` syntax error). -/
def digitsToNat : List Char → Option Nat
  | [] => none
  | [c] => if c.isDigit then some (c.toNat - '0'.toNat) else none
  | c :: cs =>
    match digitsToNat cs, c.isDigit with
    | some n, true => some ((c.toNat - '0'.toNat) * 10 ^ cs.length + n)
    | _, _ => none

/-- Go `strconv.ParseInt(s, 10, 64)` (also `strconv.Atoi` on a 64-bit
platform): an optional sign followed by decimal digits, rejected outside
the `int64` range. -/
def goParseInt64 (s : String) : Except GoError Int :=
  let core : List Char → Bool → Except GoError Int := fun ds neg =>
    match digitsToNat ds with
    | none => .error (.parseError s)
    | some n =>
      let v : Int := if neg then -(n : Int) else (n : Int)
      if -(2 ^ 63) ≤ v ∧ v ≤ 2 ^ 63 - 1 then .ok v
      else .error (.parseError s)
  match s.toList with
  | '+' :: rest => core rest false
  | '-' :: rest => core rest true
  | other => core other false

/-- Go `strconv.Atoi`; identical to `goParseInt64` on 64-bit platforms. -/
def goAtoi (s : String) : Except GoError Int := goParseInt64 s

/-- Go `strconv.FormatInt(v, 10)`. -/
def goFormatInt (v : Int) : String := toString v

/-- Go `strconv.FormatBool`. -/
def goFormatBool (b : Bool) : String := if b then "true" else "false"

/-- Wraparound of Go `int64` addition results into `[-2^63, 2^63)`. -/
def wrapInt64 (v : Int) : Int := (v + 2 ^ 63) % 2 ^ 64 - 2 ^ 63

/-! ### Wire response model

The `execResponse` structs live in `restful.go`, which is not among the
sources; their fields are modelled from the spec's wire-response
description (success flag, status code, message, and a data object with
SQL state, query id, final session names, statement-type id, column
schema, inline row data, child id/type lists, session parameters). -/

/-- Session-parameter value as decoded from the wire (`interface{}` in
Go).  `float` carries the string produced by Go's
`strconv.FormatFloat(v, 'g', -1, 64)`, since IEEE-754 rendering is not
re-implemented here; `other` stands for any non-int/float/bool/string
payload. -/
inductive ParamValue where
  | int (v : Int)
  | float (rendered : String)
  | bool (b : Bool)
  | str (s : String)
  | other
  deriving Repr, DecidableEq

/-- One entry of the response's session-parameter list. -/
structure NameValueParameter where
  Name : String
  Value : ParamValue
  deriving Repr, DecidableEq

/-- One column descriptor of the response schema; only the name is read
by the modelled code. -/
structure ExecResponseRowType where
  Name : String
  deriving Repr, DecidableEq

/-- Payload of a response.  `RowSet` models Go's `[][]*string`: an entry
`none` is a nil pointer. -/
structure ExecResponseData where
  StatementTypeID : Int
  SQLState : String
  QueryID : String
  FinalDatabaseName : String
  FinalSchemaName : String
  FinalRoleName : String
  FinalWarehouseName : String
  RowType : List ExecResponseRowType
  RowSet : List (List (Option String))
  ResultIDs : String
  ResultTypes : String
  Parameters : List NameValueParameter
  deriving Repr, DecidableEq

/-- Decoded server response. -/
structure ExecResponse where
  Data : ExecResponseData
  Message : String
  Code : String
  Success : Bool
  deriving Repr, DecidableEq

/-! ### Statement-type constants and classification (`connection.go`) -/

def statementTypeIDMulti : Int := 0x1000
def statementTypeIDDml : Int := 0x3000
def statementTypeIDInsert : Int := statementTypeIDDml + 0x100
def statementTypeIDUpdate : Int := statementTypeIDDml + 0x200
def statementTypeIDDelete : Int := statementTypeIDDml + 0x300
def statementTypeIDMerge : Int := statementTypeIDDml + 0x400
def statementTypeIDMultiTableInsert : Int := statementTypeIDDml + 0x500
def statementTypeIDDdl : Int := 0x6000

/-- Model of `isDml` (`connection.go:52`): the statement-type code lies in the DML
band. -/
def isDml (v : Int) : Bool :=
  statementTypeIDDml ≤ v && v ≤ statementTypeIDMultiTableInsert

/-- Model of `isMultiStmt` (`connection.go:58`): the id equals the multi-statement
sentinel and the first column is named `multiple statement execution`.
Go's `&&` short-circuits, so `RowType[0]` is read only when the id
matches; with an empty schema that read is an index-out-of-range panic. -/
def isMultiStmt (data : ExecResponseData) : GoOutcome GoError Bool :=
  if data.StatementTypeID = statementTypeIDMulti then
    match data.RowType with
    | [] => .panic
    | r :: _ => .ok (r.Name = "multiple statement execution")
  else .ok false

/-- Loop of `updateRows` (`connection.go:518-524`): iterate over the
declared columns, reading cell `i` of the first row.  Reading `RowSet[0]`
of an empty row set, indexing past the first row's end, or dereferencing
a nil cell is a panic; a parse failure returns the error.  The running
`int64` sum wraps. -/
def updateRowsGo (data : ExecResponseData) :
    List ExecResponseRowType → Nat → Int → GoOutcome GoError Int
  | [], _, count => .ok count
  | _ :: rest, i, count =>
    match data.RowSet with
    | [] => .panic
    | row0 :: _ =>
      match row0[i]? with
      | none => .panic
      | some none => .panic
      | some (some cell) =>
        match goParseInt64 cell with
        | .error e => .err e
        | .ok v => updateRowsGo data rest (i + 1) (wrapInt64 (count + v))

/-- Model of `updateRows` (`connection.go:516`): parse and sum the first row's
value for each declared column. -/
def updateRows (data : ExecResponseData) : GoOutcome GoError Int :=
  updateRowsGo data data.RowType 0 0

/-- One element of the parsed child-result list. -/
structure ChildResult where
  id : String
  typ : String
  deriving Repr, DecidableEq

/-- Split a character list at every occurrence of `sep`
(Go `strings.Split` with a one-character separator: an empty input
yields one empty field). -/
def splitOnChar (sep : Char) : List Char → List (List Char)
  | [] => [[]]
  | c :: rest =>
    let r := splitOnChar sep rest
    if c = sep then [] :: r
    else
      match r with
      | [] => [[c]]
      | g :: gs => (c :: g) :: gs

/-- Go `strings.Split(s, ",")`. -/
def goSplitComma (s : String) : List String :=
  (splitOnChar ',' s.toList).map (fun cs => String.mk cs)

/-- Model of `getChildResults` (`connection.go:533`): split the comma-joined id
and type lists; indexing a missing type is a panic. -/
def getChildResults (IDs : String) (types : String) :
    GoOutcome GoError (List ChildResult) :=
  if IDs = "" then .ok []
  else
    let queryIDs := goSplitComma IDs
    let resultTypes := goSplitComma types
    let rec build : List String → Nat → GoOutcome GoError (List ChildResult) :=
      fun ids i =>
        match ids with
        | [] => .ok []
        | id :: rest =>
          match resultTypes[i]? with
          | none => .panic
          | some t =>
            match build rest (i + 1) with
            | .ok tl => .ok (⟨id, t⟩ :: tl)
            | o => o
    build queryIDs 0

/-! ### Bind-value encoding (`connection.go:87-116`)

The type-inference helpers `goTypeToSnowflake`, `dataTypeMode`,
`valueToString` and `arrayToString` live in `converter.go`, which is not
among the sources; they are modelled from the spec (§3 BindValue, §4.1). -/

/-- Caller-supplied bind value (`driver.Value`).  `float` carries its
`strconv.FormatFloat(v, 'g', -1, 64)` rendering (see `ParamValue.float`);
`changeType` is a timestamp-mode value whose inference yields the
`CHANGE_TYPE` sentinel and whose `dataTypeMode` is the carried mode;
`unsupported` is a value with no wire representation. -/
inductive GoValue where
  | int (v : Int)
  | float (rendered : String)
  | bool (b : Bool)
  | str (s : String)
  | changeType (mode : String)
  | arrInt (xs : List Int)
  | arrStr (xs : List String)
  | arrBool (xs : List Bool)
  | unsupported (desc : String)
  deriving Repr, DecidableEq

/-- Modelled from the spec: wire type-tag inference
(`goTypeToSnowflake(v, tsmode)` of `converter.go`).  Fixed vocabulary of
tags; timestamp-mode values yield the `CHANGE_TYPE` sentinel; 1-D
homogeneous arrays yield `ARRAY`. -/
def goTypeToSnowflake (v : GoValue) (_tsmode : String) : String :=
  match v with
  | .int _ => "FIXED"
  | .float _ => "REAL"
  | .bool _ => "BOOLEAN"
  | .str _ => "TEXT"
  | .changeType _ => "CHANGE_TYPE"
  | .arrInt _ => "ARRAY"
  | .arrStr _ => "ARRAY"
  | .arrBool _ => "ARRAY"
  | .unsupported _ => "TEXT"

/-- Modelled from the spec: recompute the timestamp mode from a
mode-resolution value (`dataTypeMode` of `converter.go`). -/
def dataTypeMode (v : GoValue) : Except GoError String :=
  match v with
  | .changeType mode => .ok mode
  | _ => .error (.typeInference "not a data type")

/-- Modelled from the spec: canonical text conversion (`valueToString` of
`converter.go`); a value whose runtime type has no wire representation
fails with a type-inference error. -/
def valueToString (v : GoValue) (_tsmode : String) : Except GoError String :=
  match v with
  | .int n => .ok (goFormatInt n)
  | .float rendered => .ok rendered
  | .bool b => .ok (goFormatBool b)
  | .str s => .ok s
  | .unsupported desc => .error (.typeInference desc)
  | _ => .error (.typeInference "unexpected")

/-- Modelled from the spec: array encoding (`arrayToString` of
`converter.go`) — a single entry with an array type tag and a delimited
string value. -/
def arrayToString (v : GoValue) : String × String :=
  match v with
  | .arrInt xs => ("ARRAY", String.intercalate "," (xs.map goFormatInt))
  | .arrStr xs => ("ARRAY", String.intercalate "," xs)
  | .arrBool xs => ("ARRAY", String.intercalate "," (xs.map goFormatBool))
  | _ => ("ARRAY", "")

/-- One wire bind entry (`execBindParameter`): type tag plus the value
serialized as text. -/
structure ExecBindParameter where
  «Type» : String
  Value : String
  deriving Repr, DecidableEq

/-- Binding-encoding loop of `exec` (`connection.go:87-116`).  The keys
`strconv.Itoa(idx)` are pairwise distinct, so the Go map insertions are
modelled by appending to an association list in iteration order.
Arguments mirror the loop state: remaining values, current `tsmode`,
next slot `idx`, accumulated entries. -/
def execBindLoop :
    List GoValue → String → Nat → List (String × ExecBindParameter) →
    Except GoError (List (String × ExecBindParameter) × String)
  | [], tsmode, _, acc => .ok (acc, tsmode)
  | v :: rest, tsmode, idx, acc =>
    let t := goTypeToSnowflake v tsmode
    if t = "CHANGE_TYPE" then
      match dataTypeMode v with
      | .error e => .error e
      | .ok tsmode1 => execBindLoop rest tsmode1 idx acc
    else
      let step : Except GoError (String × String) :=
        if t = "ARRAY" then .ok (arrayToString v)
        else
          match valueToString v tsmode with
          | .error e => .error e
          | .ok v1 => .ok (t, v1)
      match step with
      | .error e => .error e
      | .ok (t1, v1) =>
        execBindLoop rest tsmode idx.succ (acc ++ [(toString idx, ⟨t1, v1⟩)])

/-- Default timestamp mode at the start of `exec` (`connection.go:87`). -/
def defaultTsMode : String := "TIMESTAMP_NTZ"

/-- Bindings map built by `exec`: the loop starting at slot 1 with no
accumulated entries (empty input leaves the map absent/empty). -/
def execBindings (bindings : List GoValue) :
    Except GoError (List (String × ExecBindParameter) × String) :=
  execBindLoop bindings defaultTsMode 1 []

/-! ### Connection state and session parameters -/

/-- Overwriting insert into an association list (Go map assignment). -/
def mapInsert (m : List (String × String)) (k v : String) :
    List (String × String) :=
  match m with
  | [] => [(k, v)]
  | (k0, v0) :: rest =>
    if k0 = k then (k0, v) :: rest else (k0, v0) :: mapInsert rest k v

/-- Lookup in an association list (Go map read). -/
def mapLookup (m : List (String × String)) (k : String) : Option String :=
  match m with
  | [] => none
  | (k0, v0) :: rest => if k0 = k then some v0 else mapLookup rest k

/-- Session configuration (`Config`): the fields mutated or read by
`connection.go`. -/
structure Config where
  Database : String
  Schema : String
  Role : String
  Warehouse : String
  Params : List (String × String)
  deriving Repr, DecidableEq

/-- Connection state (`snowflakeConn`).  `cfg` and `rest` are pointers
set to `none` by `cleanup`; the transport itself is an oracle, so `rest`
only records presence. -/
structure SnowflakeConn where
  cfg : Option Config
  rest : Bool
  SequenceCounter : Nat
  QueryID : String
  SQLState : String
  deriving Repr, DecidableEq

/-- Go `strings.ToLower`, for the ASCII names session parameters use. -/
def goToLower (s : String) : String :=
  String.mk (s.toList.map Char.toLower)

/-- Rendering of one session-parameter value
(`populateSessionParameters`, `connection.go:466-485`): the type switch
over `int64`/`float64`/`bool`/default. -/
def renderParamValue : ParamValue → String
  | .int v => goFormatInt v
  | .float rendered => rendered
  | .bool b => goFormatBool b
  | .str s => s
  | .other => ""

/-- Model of `populateSessionParameters` (`connection.go:463`): merge each
returned parameter into the session map under its lowercased name. -/
def populateSessionParameters (params : List NameValueParameter)
    (m : List (String × String)) : List (String × String) :=
  match params with
  | [] => m
  | p :: rest =>
    populateSessionParameters rest
      (mapInsert m (goToLower p.Name) (renderParamValue p.Value))

/-! ### The `exec` protocol state machine (`connection.go:62-167`) -/

/-- Outcome of the transport call `FuncPostQuery`: an error, possibly
accompanied by a partially decoded response, or a decoded response. -/
inductive PostOutcome where
  | err (data : Option ExecResponse) (e : GoError)
  | ok (data : ExecResponse)
  deriving Repr, DecidableEq

/-- The pair returned by `exec` (`*execResponse`, `error`), with the
distinguished panic outcome. -/
inductive ExecResult where
  | panic
  | failure (data : Option ExecResponse) (e : GoError)
  | success (data : ExecResponse)
  deriving Repr, DecidableEq

/-- Result of one `exec` call: the connection state after the call, the
`SequenceID` of the request handed to the transport (`none` when the
call failed before the transport was reached), and the returned pair. -/
structure ExecOut where
  conn : SnowflakeConn
  issuedSeq : Option Nat
  result : ExecResult
  deriving Repr, DecidableEq

/-- Model of `exec` (`connection.go:62`).  The sequence counter is a `uint64`
incremented first (`atomic.AddUint64`, wrapping at `2^64`); the bindings
loop runs next and may fail; building headers dereferences `sc.cfg`; the
transport outcome is the oracle `post`; then the status code is parsed,
`success` is checked, and on success the session state is overwritten
from the response. -/
def exec (sc : SnowflakeConn) (post : PostOutcome) (bindings : List GoValue) :
    ExecOut :=
  let counter := (sc.SequenceCounter + 1) % 2 ^ 64
  let sc1 := { sc with SequenceCounter := counter }
  match execBindings bindings with
  | .error e => ⟨sc1, none, .failure none e⟩
  | .ok _ =>
    match sc1.cfg with
    | none => ⟨sc1, none, .panic⟩
    | some cfg =>
      match post with
      | .err dataOpt e => ⟨sc1, some counter, .failure dataOpt e⟩
      | .ok data =>
        let afterCode : Int → ExecOut := fun code =>
          if data.Success then
            let cfg1 :=
              { cfg with
                  Database := data.Data.FinalDatabaseName
                  Schema := data.Data.FinalSchemaName
                  Role := data.Data.FinalRoleName
                  Warehouse := data.Data.FinalWarehouseName
                  Params :=
                    populateSessionParameters data.Data.Parameters cfg.Params }
            ⟨{ sc1 with
                 cfg := some cfg1
                 QueryID := data.Data.QueryID
                 SQLState := data.Data.SQLState },
             some counter, .success data⟩
          else
            ⟨sc1, some counter,
             .failure none
               (.snowflake
                 ⟨code, data.Data.SQLState, data.Message, data.Data.QueryID⟩)⟩
        if data.Code = "" then afterCode (-1)
        else
          match goAtoi data.Code with
          | .error e => ⟨sc1, some counter, .failure (some data) e⟩
          | .ok code => afterCode code

/-! ### Child-result fetches and the public operations -/

/-- Outcome of the child-result GET plus JSON decode inside
`getQueryResult`. -/
inductive FetchOutcome where
  | fail (e : GoError)
  | ok (resp : ExecResponse)
  deriving Repr, DecidableEq

/-- Model of `getQueryResult` (`connection.go:546`): both the transport-error and
the decode-error paths return a nil response together with the error; a
decoded response is returned with a nil error. -/
def getQueryResult (o : FetchOutcome) : Option ExecResponse × Option GoError :=
  match o with
  | .fail e => (none, some e)
  | .ok r => (some r, none)

/-- Request-scoped options read from the call context
(`isInternal`/`isAsyncMode`, `statement.go` keys).  The stored values are
booleans (written only by `WithInternal`/`WithAsyncMode`), so the failed
type-assertion branch is not modelled. -/
structure CtxOpts where
  internal : Option Bool
  async : Option Bool
  multiStatementCount : Option Int
  deriving Repr, DecidableEq

/-- Default context: no option keys set. -/
def CtxOpts.empty : CtxOpts := ⟨none, none, none⟩

/-- Value returned by `ExecContext`: a `snowflakeResult` (affected rows,
insert id, query id) or `driver.ResultNoRows`. -/
inductive DriverResult where
  | rows (affectedRows : Int) (insertID : Int) (queryID : String)
  | noRows
  deriving Repr, DecidableEq

/-- Child loop of `ExecContext` (`connection.go:278-315`).  On a fetch
error the code reads `childData.Code` before its nil check
(`connection.go:283`), and `childData` is always nil there
(`getQueryResult`), so that branch dereferences a nil pointer; when the
`Atoi` succeeds, the subsequent `err.Error()` calls a method on the
shadowed nil `error` (`connection.go:291`).  The same shadowing makes
the `updateRows`-failure branch (`connection.go:301-309`) panic after a
successful `Atoi`.  DML children contribute their wrapped `int64` count;
other children are skipped. -/
def execChildLoop (fetch : String → FetchOutcome) :
    List ChildResult → Int → GoOutcome GoError Int
  | [], acc => .ok acc
  | child :: rest, acc =>
    match getQueryResult (fetch child.id) with
    | (childDataOpt, some _e) =>
      match childDataOpt with
      | none => .panic
      | some cd =>
        match goAtoi cd.Code with
        | .error pe => .err pe
        | .ok _ => .panic
    | (none, none) => .panic
    | (some cd, none) =>
      if isDml cd.Data.StatementTypeID then
        match updateRows cd.Data with
        | .panic => .panic
        | .err _ =>
          match goAtoi cd.Code with
          | .error pe => .err pe
          | .ok _ => .panic
        | .ok count => execChildLoop fetch rest (wrapInt64 (acc + count))
      else execChildLoop fetch rest acc

/-- Error branch shared by `ExecContext` (`connection.go:249-259`) and
`QueryContext` (`connection.go:344-354`) when `exec` returned a non-nil
response along with its error: re-parse `data.Code`; on parse failure
return that parse error; otherwise the shadowed `err` is nil and
`err.Error()` panics. -/
def execErrorBranch (dataOpt : Option ExecResponse) (e : GoError) :
    GoOutcome GoError DriverResult :=
  match dataOpt with
  | some data =>
    match goAtoi data.Code with
    | .error pe => .err pe
    | .ok _ => .panic
  | none => .err e

/-- DML branch of `ExecContext` (`connection.go:264-275`): sum the first
row's counts and return a `snowflakeResult` with the `-1` insert-id
sentinel and the connection's query id. -/
def dmlExecDispatch (data : ExecResponseData) (queryID : String) :
    GoOutcome GoError DriverResult :=
  match updateRows data with
  | .panic => .panic
  | .err e => .err e
  | .ok n => .ok (.rows n (-1) queryID)

/-- Multi-statement branch of `ExecContext` (`connection.go:276-321`):
fetch every child in declared order, accumulate DML counts, and return a
`snowflakeResult` with the `-1` sentinel. -/
def multiStmtExecDispatch (fetch : String → FetchOutcome)
    (data : ExecResponseData) (queryID : String) :
    GoOutcome GoError DriverResult :=
  match getChildResults data.ResultIDs data.ResultTypes with
  | .panic => .panic
  | .err e => .err e
  | .ok children =>
    match execChildLoop fetch children 0 with
    | .panic => .panic
    | .err e => .err e
    | .ok total => .ok (.rows total (-1) queryID)

/-- Model of `ExecContext` (`connection.go:233`). -/
def ExecContext (sc : SnowflakeConn) (ctx : CtxOpts) (post : PostOutcome)
    (fetch : String → FetchOutcome) (bindings : List GoValue) :
    GoOutcome GoError DriverResult :=
  if sc.rest = false then .err .badConn
  else
    let _internal := ctx.internal.getD false
    let _noResult := ctx.async.getD false
    let out := exec sc post bindings
    match out.result with
    | .panic => .panic
    | .failure dataOpt e => execErrorBranch dataOpt e
    | .success data =>
      if isDml data.Data.StatementTypeID then
        dmlExecDispatch data.Data out.conn.QueryID
      else
        match isMultiStmt data.Data with
        | .panic => .panic
        | .err e => .err e
        | .ok true => multiStmtExecDispatch fetch data.Data out.conn.QueryID
        | .ok false => .ok .noRows

/-- Rows handle returned by `QueryContext`: the parts of `snowflakeRows`
the claims are about (schema, query id, and the ordered chain of child
result sets); the chunk-downloader internals are outside the modelled
claims. -/
structure QueryRows where
  RowType : List ExecResponseRowType
  queryID : String
  childData : List ExecResponseData
  deriving Repr, DecidableEq

/-- Child loop of `QueryContext` (`connection.go:387-414`).  Here the nil
check precedes the dereference, so a fetch error is returned as-is; a
fetch error with a non-nil response would re-parse the code and then
panic on the nil shadowed `err` (`connection.go:399`), but
`getQueryResult` never produces that pair. -/
def queryChildLoop (fetch : String → FetchOutcome) :
    List ChildResult → GoOutcome GoError (List ExecResponseData)
  | [] => .ok []
  | child :: rest =>
    match getQueryResult (fetch child.id) with
    | (childDataOpt, some e) =>
      match childDataOpt with
      | none => .err e
      | some cd =>
        match goAtoi cd.Code with
        | .error pe => .err pe
        | .ok _ => .panic
    | (none, none) => .panic
    | (some cd, none) =>
      match queryChildLoop fetch rest with
      | .ok tl => .ok (cd.Data :: tl)
      | o => o

/-- Model of `QueryContext` (`connection.go:327`). -/
def QueryContext (sc : SnowflakeConn) (ctx : CtxOpts) (post : PostOutcome)
    (fetch : String → FetchOutcome) (bindings : List GoValue) :
    GoOutcome GoError QueryRows :=
  if sc.rest = false then .err .badConn
  else
    let _internal := ctx.internal.getD false
    let _noResult := ctx.async.getD false
    let out := exec sc post bindings
    match out.result with
    | .panic => .panic
    | .failure dataOpt e =>
      match execErrorBranch dataOpt e with
      | .panic => .panic
      | .err e1 => .err e1
      | .ok _ => .panic
    | .success data =>
      match isMultiStmt data.Data with
      | .panic => .panic
      | .err e => .err e
      | .ok true =>
        match getChildResults data.Data.ResultIDs data.Data.ResultTypes with
        | .panic => .panic
        | .err e => .err e
        | .ok children =>
          match queryChildLoop fetch children with
          | .panic => .panic
          | .err e => .err e
          | .ok datas =>
            .ok ⟨data.Data.RowType, out.conn.QueryID, datas⟩
      | .ok false => .ok ⟨data.Data.RowType, out.conn.QueryID, []⟩

/-- Model of `driver.TxOptions`: `sql.LevelDefault` is the isolation value `0`. -/
structure TxOptions where
  Isolation : Int
  ReadOnly : Bool
  deriving Repr, DecidableEq

/-- Default isolation level (`sql.LevelDefault`). -/
def sqlLevelDefault : Int := 0

/-- Result of `BeginTx`: state after the call, the returned transaction
handle (`snowflakeTx` wraps the connection) or error, and whether `exec`
was invoked (a network request was attempted). -/
structure BeginOut where
  conn : SnowflakeConn
  result : GoOutcome GoError SnowflakeConn
  execCalled : Bool
  deriving Repr, DecidableEq

/-- Model of `BeginTx` (`connection.go:173`): reject read-only, then non-default
isolation, then a nil transport, before issuing `BEGIN` through `exec`. -/
def BeginTx (sc : SnowflakeConn) (opts : TxOptions) (post : PostOutcome) :
    BeginOut :=
  if opts.ReadOnly then
    ⟨sc,
     .err (.snowflake
       ⟨ErrNoReadOnlyTransaction, SQLStateFeatureNotSupported,
        errMsgNoReadOnlyTransaction, ""⟩), false⟩
  else if opts.Isolation ≠ sqlLevelDefault then
    ⟨sc,
     .err (.snowflake
       ⟨ErrNoDefaultTransactionIsolationLevel, SQLStateFeatureNotSupported,
        errMsgNoDefaultTransactionIsolationLevel, ""⟩), false⟩
  else if sc.rest = false then ⟨sc, .err .badConn, false⟩
  else
    let out := exec sc post []
    match out.result with
    | .panic => ⟨out.conn, .panic, true⟩
    | .failure _ e => ⟨out.conn, .err e, true⟩
    | .success _ => ⟨out.conn, .ok out.conn, true⟩

/-- Model of `PrepareContext` (`connection.go:217`): a statement handle is just
the connection plus the query text. -/
def PrepareContext (sc : SnowflakeConn) (query : String) :
    GoOutcome GoError String :=
  if sc.rest = false then .err .badConn else .ok query

/-- Model of `Ping` (`connection.go:435`). -/
def Ping (sc : SnowflakeConn) (ctx : CtxOpts) (post : PostOutcome) :
    GoOutcome GoError Unit :=
  if sc.rest = false then .err .badConn
  else
    let _internal := ctx.internal.getD false
    let _noResult := ctx.async.getD false
    match (exec sc post []).result with
    | .panic => .panic
    | .failure _ e => .err e
    | .success _ => .ok ()

/-! ### `Close` (`connection.go:199-215`) and the heartbeat -/

/-- Observable steps taken by `Close`, in order. -/
inductive CloseEvent where
  | heartBeatStop
  | closeSession
  deriving Repr, DecidableEq

/-- Session-parameter key guarding the keepalive heartbeat. -/
def sessionClientSessionKeepAlive : String := "client_session_keep_alive"

/-- Model of `isClientSessionKeepAliveEnabled` (`connection.go:491`): reads the
session-parameter map through the `cfg` pointer (panics when nil). -/
def isClientSessionKeepAliveEnabled (sc : SnowflakeConn) :
    GoOutcome GoError Bool :=
  match sc.cfg with
  | none => .panic
  | some cfg =>
    .ok (mapLookup cfg.Params sessionClientSessionKeepAlive = some "true")

/-- Model of `Close` (`connection.go:205`): stop the heartbeat, issue the remote
session-close call (its error `closeErr` is only logged), then `cleanup`
nils out `rest` and `cfg`; the function returns nil unconditionally.
The result carries the final state, the returned error and the ordered
event trace. -/
def Close (sc : SnowflakeConn) (closeErr : Option GoError) :
    GoOutcome GoError (SnowflakeConn × Option GoError × List CloseEvent) :=
  match isClientSessionKeepAliveEnabled sc with
  | .panic => .panic
  | .err e => .err e
  | .ok enabled =>
    if enabled ∧ sc.rest = false then .panic
    else
      let stopEvents : List CloseEvent :=
        if enabled then [.heartBeatStop] else []
      if sc.rest = false then .panic
      else
        let _ := closeErr
        .ok ({ sc with cfg := none, rest := false }, none,
             stopEvents ++ [.closeSession])

/-! ### Specification-side functions

Direct (non-accumulator) restatements of what the claims assert; the
theorems relate them to the source embedding above. -/

/-- Parse `n` consecutive cells of a row starting at index `i`, in the
sense of `strconv.ParseInt(*cell, 10, 64)`: `none` when a cell is
missing, is a nil pointer, or fails to parse. -/
def parseFromIndex (row : List (Option String)) : Nat → Nat → Option (List Int)
  | _, 0 => some []
  | i, n + 1 =>
    match row[i]? with
    | none => none
    | some none => none
    | some (some cell) =>
      match goParseInt64 cell with
      | .error _ => none
      | .ok v => (parseFromIndex row (i + 1) n).map (v :: ·)

/-- Sequence number attached by the `k`-th `exec` call (1-based) on a
connection whose counter started at `c0`: the `uint64` counter wraps at
`2^64`. -/
def seqNumOfCall (c0 : Nat) (k : Nat) : Nat := (c0 + k) % 2 ^ 64

/-- Chain of `exec` calls on one connection; each call is given its
transport oracle and bind list. -/
def execCalls (sc : SnowflakeConn) :
    List (PostOutcome × List GoValue) → List ExecOut
  | [] => []
  | (post, bs) :: rest =>
    let out := exec sc post bs
    out :: execCalls out.conn rest

/-- Sequence numbers of the requests issued by a chain of `exec` calls
(`none` for a call that failed before reaching the transport). -/
def issuedSeqs (sc : SnowflakeConn)
    (calls : List (PostOutcome × List GoValue)) : List (Option Nat) :=
  (execCalls sc calls).map ExecOut.issuedSeq

/-- Value of the last parameter in the list whose lowercased name is
`k` — the value that wins the merge into the session map. -/
def lastParamValue (params : List NameValueParameter) (k : String) :
    Option ParamValue :=
  match params with
  | [] => none
  | p :: rest =>
    match lastParamValue rest k with
    | some v => some v
    | none => if goToLower p.Name = k then some p.Value else none

/-- Consecutive bind-slot keys `idx, idx+1, …` as strings. -/
def slotKeysFrom (idx : Nat) : Nat → List String
  | 0 => []
  | n + 1 => toString idx :: slotKeysFrom (idx + 1) n

/-- Specification-side bind encoding: the entries of the bind map in
input order, with mode-resolution values consuming no slot and updating
the mode for the rest of the list. -/
def bindEntriesSpec : List GoValue → String → Except GoError (List ExecBindParameter)
  | [], _ => .ok []
  | v :: rest, ts =>
    if goTypeToSnowflake v ts = "CHANGE_TYPE" then
      match dataTypeMode v with
      | .error e => .error e
      | .ok ts1 => bindEntriesSpec rest ts1
    else
      let step : Except GoError (String × String) :=
        if goTypeToSnowflake v ts = "ARRAY" then .ok (arrayToString v)
        else
          match valueToString v ts with
          | .error e => .error e
          | .ok v1 => .ok (goTypeToSnowflake v ts, v1)
      match step with
      | .error e => .error e
      | .ok (t1, v1) => (bindEntriesSpec rest ts).map (⟨t1, v1⟩ :: ·)

/-- Timestamp mode left after processing a bind list (the mode set by
the last mode-resolution value, if any). -/
def bindFinalTs : List GoValue → String → String
  | [], ts => ts
  | v :: rest, ts =>
    if goTypeToSnowflake v ts = "CHANGE_TYPE" then
      match dataTypeMode v with
      | .ok ts1 => bindFinalTs rest ts1
      | .error _ => ts
    else bindFinalTs rest ts

/-! ### Concrete fixtures for witnesses and counterexamples -/

/-- Session configuration of the example connection. -/
def cfg0 : Config :=
  { Database := "DB0", Schema := "SC0", Role := "R0", Warehouse := "W0"
    Params := [] }

/-- An open example connection. -/
def conn0 : SnowflakeConn :=
  { cfg := some cfg0, rest := true, SequenceCounter := 0
    QueryID := "", SQLState := "" }

/-- A transport failure used as a post oracle. -/
def postFail : PostOutcome := .err none (.transport "dial tcp: timeout")

/-- Response payload with all-default fields; fixtures override what
they need. -/
def emptyData : ExecResponseData :=
  { StatementTypeID := 0, SQLState := "", QueryID := ""
    FinalDatabaseName := "", FinalSchemaName := "", FinalRoleName := ""
    FinalWarehouseName := "", RowType := [], RowSet := []
    ResultIDs := "", ResultTypes := "", Parameters := [] }

/-- Multi-statement parent response whose two children will be fetched:
sentinel statement type, marker column name, two child ids. -/
def multiParentData : ExecResponseData :=
  { emptyData with
      StatementTypeID := statementTypeIDMulti
      QueryID := "parent-1"
      RowType := [⟨"multiple statement execution"⟩]
      RowSet := [[some "2"]]
      ResultIDs := "child-a,child-b"
      ResultTypes := "12544,12544" }

/-- Successful wire response around `multiParentData`. -/
def multiParentResp : ExecResponse :=
  { Data := multiParentData, Message := "", Code := "", Success := true }

/-- Fetch oracle whose every child fetch fails with a transport error. -/
def fetchAllFail : String → FetchOutcome :=
  fun _ => .fail (.transport "connection reset by peer")

/-- Successful DML child response reporting three affected rows. -/
def dmlChildData : ExecResponseData :=
  { emptyData with
      StatementTypeID := statementTypeIDInsert
      QueryID := "child-q"
      RowType := [⟨"number of rows inserted"⟩]
      RowSet := [[some "3"]] }

/-- Fetch oracle returning a successful DML child for every id. -/
def fetchDmlOk : String → FetchOutcome :=
  fun id =>
    .ok { Data := { dmlChildData with QueryID := id }, Message := ""
          Code := "", Success := true }

/-- Response with the multi-statement sentinel id but a first column
named differently from the marker. -/
def mislabeledMultiData : ExecResponseData :=
  { emptyData with
      StatementTypeID := statementTypeIDMulti
      QueryID := "q-mislabeled"
      RowType := [⟨"number of rows inserted"⟩]
      RowSet := [[some "2"]] }

/-- Successful wire response around `mislabeledMultiData`. -/
def mislabeledMultiResp : ExecResponse :=
  { Data := mislabeledMultiData, Message := "", Code := "", Success := true }

/-- Response with the multi-statement sentinel id and an empty column
schema. -/
def emptySchemaMultiData : ExecResponseData :=
  { emptyData with StatementTypeID := statementTypeIDMulti }

/-- Successful wire response around `emptySchemaMultiData`. -/
def emptySchemaMultiResp : ExecResponse :=
  { Data := emptySchemaMultiData, Message := "", Code := "", Success := true }

/-- Successful DML response: `INSERT` statement type, first row
`["2"]`. -/
def dmlRespA : ExecResponse :=
  { Data :=
      { emptyData with
          StatementTypeID := statementTypeIDInsert
          QueryID := "q-dml-a"
          RowType := [⟨"number of rows inserted"⟩]
          RowSet := [[some "2"]] }
    Message := "", Code := "", Success := true }

/-- Failed wire response with a parsable status code. -/
def failedResp : ExecResponse :=
  { Data := { emptyData with SQLState := "42S02", QueryID := "q-fail" }
    Message := "SQL compilation error"
    Code := "2003", Success := false }

/-- Failed wire response whose status code does not parse. -/
def badCodeResp : ExecResponse :=
  { Data := { emptyData with SQLState := "XX000", QueryID := "q-badcode" }
    Message := "broken", Code := "39x011", Success := false }

/-- Successful response carrying final session names and session
parameters of all four value shapes. -/
def sessionResp : ExecResponse :=
  { Data :=
      { emptyData with
          StatementTypeID := statementTypeIDDdl
          SQLState := "00000"
          QueryID := "q-session"
          FinalDatabaseName := "DB1"
          FinalSchemaName := "SC1"
          FinalRoleName := "R1"
          FinalWarehouseName := "W1"
          Parameters :=
            [⟨"TIMEZONE", .str "UTC"⟩,
             ⟨"CLIENT_SESSION_KEEP_ALIVE", .bool true⟩,
             ⟨"AUTOCOMMIT_API_SUPPORTED", .int 42⟩,
             ⟨"SAMPLE_RATE", .float "0.5"⟩] }
    Message := "", Code := "", Success := true }

/-- Example successful response for `BEGIN`. -/
def beginResp : ExecResponse :=
  { Data := { emptyData with StatementTypeID := statementTypeIDDml, QueryID := "q-begin" }
    Message := "", Code := "", Success := true }

/-- Transport oracle used for the sequence-number fixtures: the request
reaches the wire and fails there, leaving the session untouched. -/
def c4Call : PostOutcome × List GoValue := (postFail, [])

/-- Chain of four heterogeneous `exec` calls: a transport failure, a
call whose bind encoding fails (it consumes a counter value without
issuing a request), a successful `BEGIN`, and another transport
failure. -/
def mixedCalls : List (PostOutcome × List GoValue) :=
  [(postFail, []),
   (postFail, [GoValue.unsupported "chan"]),
   (.ok beginResp, []),
   (postFail, [])]

/-- A connection already closed by `Close` (both references released). -/
def closedConn : SnowflakeConn :=
  { cfg := none, rest := false, SequenceCounter := 7
    QueryID := "q-old", SQLState := "00000" }

/-! ## Helper lemmas -/

/-- Evaluation of `goAtoi` on the empty string: a syntax error. -/
theorem goAtoi_empty : goAtoi "" = .error (.parseError "") := rfl

/-- The `exec` success path: with a decoded response whose `Success`
flag is set and whose code is absent or parsable, `exec` bumps the
counter, issues the request, overwrites the session state from the
response and returns the response. -/
theorem exec_success_eq (sc : SnowflakeConn) (cfg : Config) (resp : ExecResponse)
    (hcfg : sc.cfg = some cfg) (hs : resp.Success = true)
    (hcode : resp.Code = "" ∨ ∃ n, goAtoi resp.Code = .ok n) :
    exec sc (.ok resp) [] =
      ⟨{ cfg := some
           { Database := resp.Data.FinalDatabaseName
             Schema := resp.Data.FinalSchemaName
             Role := resp.Data.FinalRoleName
             Warehouse := resp.Data.FinalWarehouseName
             Params := populateSessionParameters resp.Data.Parameters cfg.Params }
         rest := sc.rest
         SequenceCounter := (sc.SequenceCounter + 1) % 2 ^ 64
         QueryID := resp.Data.QueryID
         SQLState := resp.Data.SQLState },
       some ((sc.SequenceCounter + 1) % 2 ^ 64), .success resp⟩ := by
  rcases hcode with h | ⟨n, hn⟩
  · simp [exec, execBindings, execBindLoop, hcfg, h, hs]
  · have hne : ¬ resp.Code = "" := by
      intro he
      rw [he, goAtoi_empty] at hn
      exact Except.noConfusion hn
    simp [exec, execBindings, execBindLoop, hcfg, hne, hn, hs]

/-! ## Claim C10 -/

/-- C10: classification as multi-statement is well-defined only for a
non-empty column schema.  For every successful response whose
statement-type id is the multi sentinel `0x1000` but whose schema is
empty, `isMultiStmt` indexes the first element of an empty list — the
out-of-bounds (panic) branch of the embedding — and the dispatch in
`ExecContext` and `QueryContext` has no defined result. -/
theorem isMultiStmt_empty_schema_panics
    (data : ExecResponseData) (msg : String) (sc : SnowflakeConn) (cfg : Config)
    (fetch : String → FetchOutcome)
    (hid : data.StatementTypeID = statementTypeIDMulti)
    (hschema : data.RowType = [])
    (hrest : sc.rest = true) (hcfg : sc.cfg = some cfg) :
    isMultiStmt data = .panic ∧
    ExecContext sc .empty (.ok ⟨data, msg, "", true⟩) fetch [] = .panic ∧
    QueryContext sc .empty (.ok ⟨data, msg, "", true⟩) fetch [] = .panic := by
  have hex := exec_success_eq sc cfg ⟨data, msg, "", true⟩ hcfg rfl (Or.inl rfl)
  have hdml : isDml data.StatementTypeID = false := by
    rw [hid]; decide
  have hms : isMultiStmt data = .panic := by
    simp [isMultiStmt, hid, hschema]
  refine ⟨hms, ?_, ?_⟩
  · simp [ExecContext, hrest, hex, hdml, hms]
  · simp [QueryContext, hrest, hex, hms]

/-- C10 witness: the panic branch is reached at a concrete response. -/
theorem isMultiStmt_empty_schema_panics_witness :
    (emptySchemaMultiData.StatementTypeID = statementTypeIDMulti ∧
     emptySchemaMultiData.RowType = [] ∧
     conn0.rest = true ∧ conn0.cfg = some cfg0) ∧
    (isMultiStmt emptySchemaMultiData = .panic ∧
     ExecContext conn0 .empty (.ok ⟨emptySchemaMultiData, "", "", true⟩)
       fetchAllFail [] = .panic ∧
     QueryContext conn0 .empty (.ok ⟨emptySchemaMultiData, "", "", true⟩)
       fetchAllFail [] = .panic) :=
  ⟨⟨by decide, rfl, rfl, rfl⟩,
   isMultiStmt_empty_schema_panics emptySchemaMultiData "" conn0 cfg0
     fetchAllFail (by decide) rfl rfl rfl⟩

/-! ## Claim C2 -/

/-- C2 counterexample: a successful response whose statement-type id is
the multi sentinel but whose first column is named differently is NOT
dispatched as ordinary DML: `ExecContext` returns the DDL no-rows
result, while the DML dispatch at the same response would return a
2-row `snowflakeResult`. -/
theorem multi_sentinel_wrong_name_not_dml :
    ExecContext conn0 .empty (.ok mislabeledMultiResp) fetchAllFail [] =
      .ok .noRows ∧
    dmlExecDispatch mislabeledMultiData "q-mislabeled" =
      .ok (.rows 2 (-1) "q-mislabeled") ∧
    (.ok .noRows : GoOutcome GoError DriverResult) ≠
      .ok (.rows 2 (-1) "q-mislabeled") := by
  decide

/-- C2 amended: for a successful exec response with the multi sentinel
statement-type id, a first column named `multiple statement execution`
selects the multi-statement dispatch; any other first column name makes
`isMultiStmt` false, and since the sentinel lies outside the DML band
the response is dispatched as DDL (the no-rows result), not as DML. -/
theorem multi_sentinel_dispatch_by_first_column
    (sc : SnowflakeConn) (cfg : Config) (fetch : String → FetchOutcome)
    (name : String) (restCols : List ExecResponseRowType)
    (data : ExecResponseData) (msg : String)
    (hrest : sc.rest = true) (hcfg : sc.cfg = some cfg)
    (hid : data.StatementTypeID = statementTypeIDMulti)
    (hcols : data.RowType = ⟨name⟩ :: restCols) :
    isDml data.StatementTypeID = false ∧
    (name = "multiple statement execution" →
       isMultiStmt data = .ok true ∧
       ExecContext sc .empty (.ok ⟨data, msg, "", true⟩) fetch [] =
         multiStmtExecDispatch fetch data data.QueryID) ∧
    (name ≠ "multiple statement execution" →
       isMultiStmt data = .ok false ∧
       ExecContext sc .empty (.ok ⟨data, msg, "", true⟩) fetch [] =
         .ok .noRows) := by
  have hex := exec_success_eq sc cfg ⟨data, msg, "", true⟩ hcfg rfl (Or.inl rfl)
  have hdml : isDml data.StatementTypeID = false := by
    rw [hid]; decide
  refine ⟨hdml, ?_, ?_⟩
  · intro hname
    have hms : isMultiStmt data = .ok true := by
      simp [isMultiStmt, hid, hcols, hname]
    exact ⟨hms, by simp [ExecContext, hrest, hex, hdml, hms]⟩
  · intro hname
    have hms : isMultiStmt data = .ok false := by
      simp [isMultiStmt, hid, hcols, hname]
    exact ⟨hms, by simp [ExecContext, hrest, hex, hdml, hms]⟩

/-- C2 witness: both arms at concrete responses — the marker-named
response goes to the multi-statement dispatch (here aggregating two DML
children of 3 rows each), the differently-named one to the no-rows
result. -/
theorem multi_sentinel_dispatch_by_first_column_witness :
    (isMultiStmt multiParentData = .ok true ∧
     ExecContext conn0 .empty (.ok ⟨multiParentData, "", "", true⟩)
       fetchDmlOk [] =
       multiStmtExecDispatch fetchDmlOk multiParentData
         multiParentData.QueryID) ∧
    (isMultiStmt mislabeledMultiData = .ok false ∧
     ExecContext conn0 .empty (.ok ⟨mislabeledMultiData, "", "", true⟩)
       fetchDmlOk [] = .ok .noRows) ∧
    multiStmtExecDispatch fetchDmlOk multiParentData multiParentData.QueryID =
      .ok (.rows 6 (-1) "parent-1") :=
  ⟨(multi_sentinel_dispatch_by_first_column conn0 cfg0 fetchDmlOk
      "multiple statement execution" [] multiParentData "" rfl rfl (by decide)
      rfl).2.1 rfl,
   (multi_sentinel_dispatch_by_first_column conn0 cfg0 fetchDmlOk
      "number of rows inserted" [] mislabeledMultiData "" rfl rfl (by decide)
      rfl).2.2 (by decide),
   by decide⟩

/-! ## Claim C1 -/

/-- C1: the code is wrong where the claim expects the failed child's
StructuredError.  `getQueryResult` returns a nil response alongside any
fetch error, and the multi-statement child loop of `ExecContext` reads
`childData.Code` before its nil check, so a child fetch failure is a nil
pointer dereference (panic), not a returned `StructuredError`.
Evaluated at a concrete two-child multi-statement execution whose child
fetches fail with a transport error. -/
theorem execContext_child_fetch_failure_panics :
    getQueryResult (fetchAllFail "child-a") =
      (none, some (.transport "connection reset by peer")) ∧
    ExecContext conn0 .empty (.ok multiParentResp) fetchAllFail [] = .panic := by
  decide

/-! ## Claim C5 -/

/-- C5: on a response with `success` false and a parsable status code,
`exec` fails with the StructuredError built from the parsed code, the
response's SQL state, message and query id; when the (non-empty) status
code does not parse, `exec` fails with the parse error and still hands
the partially populated response back to the caller. -/
theorem exec_failure_error_reporting (sc : SnowflakeConn) (cfg : Config)
    (resp : ExecResponse) (hcfg : sc.cfg = some cfg) :
    (∀ code, goAtoi resp.Code = .ok code → resp.Success = false →
       (exec sc (.ok resp) []).result =
         .failure none
           (.snowflake
             ⟨code, resp.Data.SQLState, resp.Message, resp.Data.QueryID⟩)) ∧
    (∀ pe, resp.Code ≠ "" → goAtoi resp.Code = .error pe →
       (exec sc (.ok resp) []).result = .failure (some resp) pe) := by
  constructor
  · intro code hcode hfail
    have hne : ¬ resp.Code = "" := by
      intro he
      rw [he, goAtoi_empty] at hcode
      exact Except.noConfusion hcode
    simp [exec, execBindings, execBindLoop, hcfg, hne, hcode, hfail]
  · intro pe hne hpe
    simp [exec, execBindings, execBindLoop, hcfg, hne, hpe]

/-- C5 witness: both arms at concrete failed responses. -/
theorem exec_failure_error_reporting_witness :
    (goAtoi failedResp.Code = .ok 2003 ∧ failedResp.Success = false ∧
     (exec conn0 (.ok failedResp) []).result =
       .failure none
         (.snowflake ⟨2003, "42S02", "SQL compilation error", "q-fail"⟩)) ∧
    (badCodeResp.Code ≠ "" ∧
     goAtoi badCodeResp.Code = .error (.parseError "39x011") ∧
     (exec conn0 (.ok badCodeResp) []).result =
       .failure (some badCodeResp) (.parseError "39x011")) :=
  ⟨⟨rfl, rfl,
    (exec_failure_error_reporting conn0 cfg0 failedResp rfl).1 2003 rfl rfl⟩,
   ⟨by decide, rfl,
    (exec_failure_error_reporting conn0 cfg0 badCodeResp rfl).2
      (.parseError "39x011") (by decide) rfl⟩⟩

/-! ## Claim C6 -/

/-- C6: `BeginTx` rejects a read-only transaction, and any isolation
level other than the default, with a feature-not-supported
StructuredError before `exec` is invoked (no network request); otherwise
a `BEGIN` statement is executed through `exec` and a transaction handle
bound to the (updated) connection is returned. -/
theorem beginTx_rejects_and_begins (sc : SnowflakeConn) (opts : TxOptions)
    (post : PostOutcome) :
    (opts.ReadOnly = true →
       BeginTx sc opts post =
         ⟨sc,
          .err (.snowflake
            ⟨ErrNoReadOnlyTransaction, SQLStateFeatureNotSupported,
             errMsgNoReadOnlyTransaction, ""⟩), false⟩) ∧
    (opts.ReadOnly = false → opts.Isolation ≠ sqlLevelDefault →
       BeginTx sc opts post =
         ⟨sc,
          .err (.snowflake
            ⟨ErrNoDefaultTransactionIsolationLevel, SQLStateFeatureNotSupported,
             errMsgNoDefaultTransactionIsolationLevel, ""⟩), false⟩) ∧
    (opts.ReadOnly = false → opts.Isolation = sqlLevelDefault →
       sc.rest = true →
       ∀ data, (exec sc post []).result = .success data →
         BeginTx sc opts post =
           ⟨(exec sc post []).conn, .ok ((exec sc post []).conn), true⟩) := by
  refine ⟨?_, ?_, ?_⟩
  · intro hro
    simp [BeginTx, hro]
  · intro hro hiso
    simp [BeginTx, hro, hiso]
  · intro hro hiso hrest data hdata
    simp [BeginTx, hro, hiso, hrest, hdata]

/-- C6 witness: the three arms at concrete inputs — read-only and
non-default isolation fail fast with no exec, the default options issue
`BEGIN` and return the bound handle. -/
theorem beginTx_rejects_and_begins_witness :
    BeginTx conn0 ⟨0, true⟩ postFail =
      ⟨conn0,
       .err (.snowflake
         ⟨ErrNoReadOnlyTransaction, SQLStateFeatureNotSupported,
          errMsgNoReadOnlyTransaction, ""⟩), false⟩ ∧
    BeginTx conn0 ⟨5, false⟩ postFail =
      ⟨conn0,
       .err (.snowflake
         ⟨ErrNoDefaultTransactionIsolationLevel, SQLStateFeatureNotSupported,
          errMsgNoDefaultTransactionIsolationLevel, ""⟩), false⟩ ∧
    ((exec conn0 (.ok beginResp) []).result = .success beginResp ∧
     BeginTx conn0 ⟨0, false⟩ (.ok beginResp) =
       ⟨(exec conn0 (.ok beginResp) []).conn,
        .ok ((exec conn0 (.ok beginResp) []).conn), true⟩) :=
  ⟨(beginTx_rejects_and_begins conn0 ⟨0, true⟩ postFail).1 rfl,
   (beginTx_rejects_and_begins conn0 ⟨5, false⟩ postFail).2.1 rfl (by decide),
   ⟨by decide,
    (beginTx_rejects_and_begins conn0 ⟨0, false⟩ (.ok beginResp)).2.2 rfl rfl
      rfl beginResp (by decide)⟩⟩

/-! ## Claim C3 -/

/-- Wrapping an already-wrapped left summand changes nothing. -/
theorem wrapInt64_add_left (a b : Int) :
    wrapInt64 (wrapInt64 a + b) = wrapInt64 (a + b) := by
  unfold wrapInt64
  omega

/-- Values inside the `int64` range are fixed by the wrap. -/
theorem wrapInt64_eq_self (v : Int) (hlo : -(2 ^ 63) ≤ v)
    (hhi : v ≤ 2 ^ 63 - 1) : wrapInt64 v = v := by
  unfold wrapInt64
  omega

/-- The wrapping left fold of a list equals the wrap of its plain sum. -/
theorem foldl_wrapAdd (vs : List Int) (a : Int) :
    vs.foldl (fun c v => wrapInt64 (c + v)) (wrapInt64 a) =
      wrapInt64 (a + vs.sum) := by
  induction vs generalizing a with
  | nil => simp
  | cons v rest ih =>
    simp only [List.foldl_cons, List.sum_cons]
    rw [wrapInt64_add_left, ih (a + v)]
    congr 1
    ring

/-- The `updateRows` loop computes the wrapping fold of the values that
`parseFromIndex` reads off the first row. -/
theorem updateRowsGo_spec (data : ExecResponseData)
    (row0 : List (Option String)) (rows : List (List (Option String)))
    (hrs : data.RowSet = row0 :: rows) :
    ∀ (cols : List ExecResponseRowType) (i : Nat) (count : Int)
      (vs : List Int),
      parseFromIndex row0 i cols.length = some vs →
      updateRowsGo data cols i count =
        .ok (vs.foldl (fun c v => wrapInt64 (c + v)) count) := by
  intro cols
  induction cols with
  | nil =>
    intro i count vs h
    simp only [List.length_nil, parseFromIndex, Option.some.injEq] at h
    subst h
    simp [updateRowsGo]
  | cons c rest ih =>
    intro i count vs h
    simp only [List.length_cons, parseFromIndex] at h
    split at h
    · exact Option.noConfusion h
    · exact Option.noConfusion h
    next cell heq =>
      split at h
      · exact Option.noConfusion h
      next v hp =>
        simp only [Option.map_eq_some'] at h
        obtain ⟨vs1, hvs1, rfl⟩ := h
        simp only [updateRowsGo, hrs, heq, hp]
        rw [ih (i + 1) (wrapInt64 (count + v)) vs1 hvs1]
        simp

/-- C3: a successful response classified as DML makes `ExecContext`
return a `snowflakeResult` whose affected-row count is the sum of the
integers parsed from the first row (one per declared column, no
`int64` overflow) and whose insert id is the sentinel `-1`. -/
theorem execContext_dml_sums_first_row
    (sc : SnowflakeConn) (cfg : Config) (fetch : String → FetchOutcome)
    (resp : ExecResponse) (row0 : List (Option String))
    (rows : List (List (Option String))) (vs : List Int)
    (hrest : sc.rest = true) (hcfg : sc.cfg = some cfg)
    (hs : resp.Success = true) (hc : resp.Code = "")
    (hdml : isDml resp.Data.StatementTypeID = true)
    (hrs : resp.Data.RowSet = row0 :: rows)
    (hparse : parseFromIndex row0 0 resp.Data.RowType.length = some vs)
    (hlo : -(2 ^ 63) ≤ vs.sum) (hhi : vs.sum ≤ 2 ^ 63 - 1) :
    updateRows resp.Data = .ok vs.sum ∧
    ExecContext sc .empty (.ok resp) fetch [] =
      .ok (.rows vs.sum (-1) resp.Data.QueryID) := by
  have hzero : (0 : Int) = wrapInt64 0 := by decide
  have hur : updateRows resp.Data = .ok vs.sum := by
    rw [updateRows,
        updateRowsGo_spec resp.Data row0 rows hrs resp.Data.RowType 0 0 vs hparse,
        hzero, foldl_wrapAdd, zero_add, wrapInt64_eq_self vs.sum hlo hhi]
  have hex := exec_success_eq sc cfg resp hcfg hs (Or.inl hc)
  exact ⟨hur, by simp [ExecContext, hrest, hex, hdml, dmlExecDispatch, hur]⟩

/-- C3 witness: the spec's Scenario A — a DML response whose first row
is `["2"]` yields 2 affected rows and insert id `-1`. -/
theorem execContext_dml_sums_first_row_witness :
    (conn0.rest = true ∧ dmlRespA.Success = true ∧ dmlRespA.Code = "" ∧
     isDml dmlRespA.Data.StatementTypeID = true ∧
     dmlRespA.Data.RowSet = [[some "2"]] ∧
     parseFromIndex [some "2"] 0 dmlRespA.Data.RowType.length = some [2]) ∧
    (updateRows dmlRespA.Data = .ok ([2] : List Int).sum ∧
     ExecContext conn0 .empty (.ok dmlRespA) fetchAllFail [] =
       .ok (.rows ([2] : List Int).sum (-1) dmlRespA.Data.QueryID)) :=
  ⟨⟨rfl, rfl, rfl, by decide, rfl, by decide⟩,
   execContext_dml_sums_first_row conn0 cfg0 fetchAllFail dmlRespA
     [some "2"] [] [2] rfl rfl rfl rfl (by decide) rfl (by decide)
     (by decide) (by decide)⟩

/-! ## Claim C4 -/

/-- Every `exec` call advances the `uint64` sequence counter by exactly
one, wrapping at `2^64`, whatever the outcome. -/
theorem exec_counter_step (sc : SnowflakeConn) (post : PostOutcome)
    (bs : List GoValue) :
    (exec sc post bs).conn.SequenceCounter =
      (sc.SequenceCounter + 1) % 2 ^ 64 := by
  unfold exec
  repeat' split
  all_goals try simp
  all_goals cases sc.cfg <;> simp

/-- Evaluation of `exec` at the transport-failure oracle: the request is
issued with the freshly incremented counter and the session state is
otherwise untouched. -/
theorem exec_postFail_eq (sc : SnowflakeConn) (cfg : Config)
    (hcfg : sc.cfg = some cfg) :
    exec sc postFail [] =
      ⟨{ sc with SequenceCounter := (sc.SequenceCounter + 1) % 2 ^ 64 },
       some ((sc.SequenceCounter + 1) % 2 ^ 64),
       .failure none (.transport "dial tcp: timeout")⟩ := by
  simp [exec, execBindings, execBindLoop, hcfg, postFail]

/-- The `k`-th of `n` chained `exec` calls issues the sequence number
`(c0 + k + 1) % 2^64` where `c0` is the connection's starting counter. -/
theorem issuedSeqs_replicate (n : Nat) (sc : SnowflakeConn) (cfg : Config)
    (hcfg : sc.cfg = some cfg) (k : Nat) (hk : k < n) :
    (issuedSeqs sc (List.replicate n c4Call))[k]? =
      some (some (seqNumOfCall sc.SequenceCounter (k + 1))) := by
  induction n generalizing sc k with
  | zero => omega
  | succ m ih =>
    rw [List.replicate_succ]
    simp only [issuedSeqs, execCalls, c4Call]
    rw [exec_postFail_eq sc cfg hcfg]
    cases k with
    | zero => simp [seqNumOfCall]
    | succ k1 =>
      have hk1 : k1 < m := by omega
      have := ih { sc with SequenceCounter := (sc.SequenceCounter + 1) % 2 ^ 64 }
        hcfg k1 hk1
      simp only [issuedSeqs, c4Call] at this
      simp only [List.map_cons, List.getElem?_cons_succ, this,
        seqNumOfCall, Option.some.injEq]
      omega

/-- C4 counterexample: the sequence counter is a `uint64` and wraps.  On
a fresh connection (counter 0), the first call and the `2^64 + 1`-st
call both issue sequence number 1: within a long enough lifetime a
sequence number IS repeated, refuting strict increase as stated. -/
theorem sequence_numbers_wrap_and_repeat :
    (issuedSeqs conn0 (List.replicate (2 ^ 64 + 1) c4Call))[0]? =
      some (some 1) ∧
    (issuedSeqs conn0 (List.replicate (2 ^ 64 + 1) c4Call))[2 ^ 64]? =
      some (some 1) ∧
    (0 : Nat) ≠ 2 ^ 64 := by
  have h1 := issuedSeqs_replicate (2 ^ 64 + 1) conn0 cfg0 rfl 0 (by omega)
  have h2 := issuedSeqs_replicate (2 ^ 64 + 1) conn0 cfg0 rfl (2 ^ 64) (by omega)
  refine ⟨?_, ?_, by omega⟩
  · rw [h1]
    norm_num [seqNumOfCall, conn0]
  · rw [h2]
    norm_num [seqNumOfCall, conn0]

/-- Whatever the outcome, an `exec` call either never reached the
transport (no sequence attached) or attached exactly the freshly
incremented counter value. -/
theorem exec_issuedSeq_cases (sc : SnowflakeConn) (post : PostOutcome)
    (bs : List GoValue) :
    (exec sc post bs).issuedSeq = none ∨
    (exec sc post bs).issuedSeq = some ((sc.SequenceCounter + 1) % 2 ^ 64) := by
  unfold exec
  repeat' split
  all_goals try simp
  all_goals cases sc.cfg <;> simp

/-- In an arbitrary chain of `exec` calls, the `k`-th call (0-based)
leaves the counter at `(c0 + k + 1) % 2^64`: every call consumes exactly
one counter value, whatever its transport oracle, bindings or outcome. -/
theorem execCalls_counter (calls : List (PostOutcome × List GoValue)) :
    ∀ (sc : SnowflakeConn) (k : Nat) (out : ExecOut),
      (execCalls sc calls)[k]? = some out →
      out.conn.SequenceCounter = (sc.SequenceCounter + (k + 1)) % 2 ^ 64 := by
  induction calls with
  | nil =>
    intro sc k out h
    simp [execCalls] at h
  | cons c rest ih =>
    intro sc k out h
    obtain ⟨post, bs⟩ := c
    simp only [execCalls] at h
    cases k with
    | zero =>
      simp only [List.getElem?_cons_zero, Option.some.injEq] at h
      subst h
      simpa using exec_counter_step sc post bs
    | succ k1 =>
      simp only [List.getElem?_cons_succ] at h
      have h1 := ih (exec sc post bs).conn k1 out h
      rw [h1, exec_counter_step]
      omega

/-- In an arbitrary chain of `exec` calls, any sequence number the
`k`-th call (0-based) attaches to an issued request is
`(c0 + k + 1) % 2^64`. -/
theorem execCalls_issuedSeq (calls : List (PostOutcome × List GoValue)) :
    ∀ (sc : SnowflakeConn) (k : Nat) (out : ExecOut) (s : Nat),
      (execCalls sc calls)[k]? = some out → out.issuedSeq = some s →
      s = seqNumOfCall sc.SequenceCounter (k + 1) := by
  induction calls with
  | nil =>
    intro sc k out s h _
    simp [execCalls] at h
  | cons c rest ih =>
    intro sc k out s h hs
    obtain ⟨post, bs⟩ := c
    simp only [execCalls] at h
    cases k with
    | zero =>
      simp only [List.getElem?_cons_zero, Option.some.injEq] at h
      subst h
      rcases exec_issuedSeq_cases sc post bs with hnone | hsome
      · rw [hnone] at hs
        exact Option.noConfusion hs
      · rw [hsome] at hs
        injection hs with hs
        simp only [seqNumOfCall]
        omega
    | succ k1 =>
      simp only [List.getElem?_cons_succ] at h
      have h1 := ih (exec sc post bs).conn k1 out s h hs
      rw [h1]
      simp only [seqNumOfCall, exec_counter_step]
      omega

/-- C4 amended: in every sequence of `exec` calls on one connection —
arbitrary transport oracles and bind lists — each call consumes exactly
one value of the `uint64` counter (which wraps at `2^64`), and a call
that reaches the transport attaches the sequence number
`(c0 + k + 1) % 2^64` for call index `k`.  Hence two consecutive calls
that both issue requests attach numbers differing by exactly 1 modulo
`2^64` (a call failing before the transport, e.g. in bind encoding,
consumes its counter value without issuing, so issued numbers skip it),
and within any window of fewer than `2^64` calls no issued sequence
number repeats. -/
theorem sequence_numbers_mod_wraparound
    (calls : List (PostOutcome × List GoValue)) (sc : SnowflakeConn) :
    (∀ k out, (execCalls sc calls)[k]? = some out →
       out.conn.SequenceCounter = (sc.SequenceCounter + (k + 1)) % 2 ^ 64) ∧
    (∀ k out s, (execCalls sc calls)[k]? = some out →
       out.issuedSeq = some s →
       s = seqNumOfCall sc.SequenceCounter (k + 1)) ∧
    (∀ i j outi outj si sj,
       (execCalls sc calls)[i]? = some outi →
       (execCalls sc calls)[j]? = some outj →
       outi.issuedSeq = some si → outj.issuedSeq = some sj →
       (j = i + 1 → sj = (si + 1) % 2 ^ 64) ∧
       (i < j → j - i < 2 ^ 64 → si ≠ sj)) := by
  refine ⟨fun k out h => execCalls_counter calls sc k out h,
          fun k out s h hs => execCalls_issuedSeq calls sc k out s h hs, ?_⟩
  intro i j outi outj si sj hi hj hsi hsj
  have h1 := execCalls_issuedSeq calls sc i outi si hi hsi
  have h2 := execCalls_issuedSeq calls sc j outj sj hj hsj
  subst h1
  subst h2
  constructor
  · intro hji
    subst hji
    simp only [seqNumOfCall]
    omega
  · intro hij hwin
    simp only [seqNumOfCall]
    omega

/-- C4 witness: a heterogeneous four-call chain (transport failure,
bind-encoding failure, successful `BEGIN`, transport failure) issues
sequence numbers 1, none, 3, 4: the bind-failure call consumes number 2
without issuing, the consecutive issuing pair (calls 2 and 3, 0-based)
differs by exactly 1, and issued numbers 3 and 4 differ. -/
theorem sequence_numbers_mod_wraparound_witness :
    (execCalls conn0 mixedCalls).map ExecOut.issuedSeq =
      [some 1, none, some 3, some 4] ∧
    (3 : Nat) = seqNumOfCall conn0.SequenceCounter (2 + 1) ∧
    (4 : Nat) = (3 + 1) % 2 ^ 64 ∧
    (3 : Nat) ≠ 4 := by
  refine ⟨by decide, ?_, ?_, ?_⟩
  · exact (sequence_numbers_mod_wraparound mixedCalls conn0).2.1 2
      ⟨⟨some ⟨"", "", "", "", []⟩, true, 3, "q-begin", ""⟩, some 3,
        .success beginResp⟩ 3 (by decide) rfl
  · exact ((sequence_numbers_mod_wraparound mixedCalls conn0).2.2 2 3
      ⟨⟨some ⟨"", "", "", "", []⟩, true, 3, "q-begin", ""⟩, some 3,
        .success beginResp⟩
      ⟨⟨some ⟨"", "", "", "", []⟩, true, 4, "q-begin", ""⟩, some 4,
        .failure none (.transport "dial tcp: timeout")⟩ 3 4
      (by decide) (by decide) rfl rfl).1 rfl
  · exact ((sequence_numbers_mod_wraparound mixedCalls conn0).2.2 2 3
      ⟨⟨some ⟨"", "", "", "", []⟩, true, 3, "q-begin", ""⟩, some 3,
        .success beginResp⟩
      ⟨⟨some ⟨"", "", "", "", []⟩, true, 4, "q-begin", ""⟩, some 4,
        .failure none (.transport "dial tcp: timeout")⟩ 3 4
      (by decide) (by decide) rfl rfl).2 (by decide) (by decide)

/-! ## Claim C7 -/

/-- Lookup after an overwriting insert. -/
theorem mapLookup_mapInsert (m : List (String × String)) (k v k1 : String) :
    mapLookup (mapInsert m k v) k1 =
      if k1 = k then some v else mapLookup m k1 := by
  induction m with
  | nil =>
    simp only [mapInsert, mapLookup]
    by_cases h : k1 = k
    · subst h; simp
    · rw [if_neg (fun hh => h hh.symm), if_neg h]
  | cons p rest ih =>
    obtain ⟨k0, v0⟩ := p
    simp only [mapInsert]
    by_cases h0 : k0 = k
    · subst h0
      simp only [if_pos rfl, mapLookup]
      by_cases h1 : k1 = k0
      · subst h1
        simp
      · rw [if_neg (fun hh => h1 hh.symm), if_neg h1,
            if_neg (fun hh => h1 hh.symm)]
    · rw [if_neg h0]
      simp only [mapLookup, ih]
      by_cases h1 : k0 = k1
      · subst h1
        rw [if_pos rfl, if_neg h0, if_pos rfl]
      · rw [if_neg h1]
        by_cases h2 : k1 = k
        · rw [if_pos h2, if_pos h2]
        · rw [if_neg h2, if_neg h2, if_neg h1]

/-- The session-parameter merge gives, at every key, the rendering of
the last parameter whose lowercased name is that key (or the previous
value when no parameter mentions it). -/
theorem populateSessionParameters_lookup (params : List NameValueParameter)
    (m : List (String × String)) (k : String) :
    mapLookup (populateSessionParameters params m) k =
      match lastParamValue params k with
      | some v => some (renderParamValue v)
      | none => mapLookup m k := by
  induction params generalizing m with
  | nil => simp [populateSessionParameters, lastParamValue]
  | cons p rest ih =>
    simp only [populateSessionParameters, lastParamValue]
    rw [ih]
    cases hl : lastParamValue rest k with
    | some v => simp [hl]
    | none =>
      simp only [hl]
      by_cases hk : goToLower p.Name = k
      · simp [mapLookup_mapInsert, hk]
      · simp only [mapLookup_mapInsert]
        rw [if_neg (fun hh => hk hh.symm), if_neg hk]

/-- C7: on every successful response, `exec` overwrites the session's
database, schema, role and warehouse with the response's final names,
updates the last query id and SQL state, and merges each returned
session parameter under its lowercased name, rendered by the
value-shape switch of `populateSessionParameters` (ints, floats and
bools to canonical text, strings copied). -/
theorem exec_success_updates_session (sc : SnowflakeConn) (cfg : Config)
    (resp : ExecResponse) (hcfg : sc.cfg = some cfg)
    (hs : resp.Success = true)
    (hcode : resp.Code = "" ∨ ∃ n, goAtoi resp.Code = .ok n) :
    (exec sc (.ok resp) []).conn.cfg =
      some
        { Database := resp.Data.FinalDatabaseName
          Schema := resp.Data.FinalSchemaName
          Role := resp.Data.FinalRoleName
          Warehouse := resp.Data.FinalWarehouseName
          Params := populateSessionParameters resp.Data.Parameters cfg.Params } ∧
    (exec sc (.ok resp) []).conn.QueryID = resp.Data.QueryID ∧
    (exec sc (.ok resp) []).conn.SQLState = resp.Data.SQLState ∧
    (∀ k, mapLookup (populateSessionParameters resp.Data.Parameters cfg.Params) k =
       match lastParamValue resp.Data.Parameters k with
       | some v => some (renderParamValue v)
       | none => mapLookup cfg.Params k) := by
  rw [exec_success_eq sc cfg resp hcfg hs hcode]
  exact ⟨rfl, rfl, rfl,
    fun k => populateSessionParameters_lookup resp.Data.Parameters cfg.Params k⟩

/-- C7 witness: a response carrying final session names and four
parameters (string, bool, int, float shaped) updates the session: names
overwritten, keys lowercased, values rendered. -/
theorem exec_success_updates_session_witness :
    (conn0.cfg = some cfg0 ∧ sessionResp.Success = true ∧
     sessionResp.Code = "") ∧
    (exec conn0 (.ok sessionResp) []).conn.cfg =
      some
        { Database := "DB1", Schema := "SC1", Role := "R1", Warehouse := "W1"
          Params :=
            populateSessionParameters sessionResp.Data.Parameters cfg0.Params } ∧
    (exec conn0 (.ok sessionResp) []).conn.QueryID = "q-session" ∧
    mapLookup (populateSessionParameters sessionResp.Data.Parameters cfg0.Params)
      "timezone" = some "UTC" ∧
    mapLookup (populateSessionParameters sessionResp.Data.Parameters cfg0.Params)
      "client_session_keep_alive" = some "true" ∧
    mapLookup (populateSessionParameters sessionResp.Data.Parameters cfg0.Params)
      "autocommit_api_supported" = some "42" ∧
    mapLookup (populateSessionParameters sessionResp.Data.Parameters cfg0.Params)
      "sample_rate" = some "0.5" := by
  have h := exec_success_updates_session conn0 cfg0 sessionResp rfl rfl
    (Or.inl rfl)
  exact ⟨⟨rfl, rfl, rfl⟩, h.1, h.2.1,
    (h.2.2.2 "timezone").trans (by decide),
    (h.2.2.2 "client_session_keep_alive").trans (by decide),
    (h.2.2.2 "autocommit_api_supported").trans (by decide),
    (h.2.2.2 "sample_rate").trans (by decide)⟩

/-! ## Claim C8 -/

/-- The accumulator loop of the bind encoding equals the direct
specification recursion: same error, entries keyed by consecutive slots
starting at `idx` and appended to the accumulator, and the final
timestamp mode. -/
theorem execBindLoop_spec (bs : List GoValue) :
    ∀ (ts : String) (idx : Nat) (acc : List (String × ExecBindParameter)),
      execBindLoop bs ts idx acc =
        match bindEntriesSpec bs ts with
        | .error e => .error e
        | .ok ps => .ok (acc ++ (slotKeysFrom idx ps.length).zip ps,
                         bindFinalTs bs ts) := by
  induction bs with
  | nil =>
    intro ts idx acc
    simp [execBindLoop, bindEntriesSpec, bindFinalTs, slotKeysFrom]
  | cons v rest ih =>
    intro ts idx acc
    simp only [execBindLoop, bindEntriesSpec, bindFinalTs]
    by_cases hct : goTypeToSnowflake v ts = "CHANGE_TYPE"
    · simp only [hct, if_pos rfl, if_true]
      cases hdm : dataTypeMode v with
      | error e => simp
      | ok ts1 => simp [ih]
    · simp only [hct, if_false]
      cases hstep :
          (if goTypeToSnowflake v ts = "ARRAY" then
             Except.ok (arrayToString v)
           else
             match valueToString v ts with
             | .error e => .error e
             | .ok v1 => .ok (goTypeToSnowflake v ts, v1)) with
      | error e => simp [hstep]
      | ok p =>
        obtain ⟨t1, v1⟩ := p
        simp only [hstep, ih]
        cases hrest : bindEntriesSpec rest ts with
        | error e => simp [Except.map]
        | ok ps => simp [Except.map, slotKeysFrom, List.zip_cons_cons]

/-- C8: in the bind-encoding loop of `exec`, a mode-resolution
(`CHANGE_TYPE`) value updates the timestamp mode for the rest of the
list and occupies no slot; an array value is appended as a single entry
with the array tag and delimited string from `arrayToString`; any other
value is appended with its canonical text from `valueToString`; and a
successful encoding assigns the non-signal values the consecutive
1-based string keys `"1"‥"N"` in input order, as given by the direct
specification recursion `bindEntriesSpec`. -/
theorem exec_bindings_encoding :
    (∀ (m : String) (rest : List GoValue) (ts : String) (idx : Nat)
       (acc : List (String × ExecBindParameter)),
       execBindLoop (.changeType m :: rest) ts idx acc =
         execBindLoop rest m idx acc) ∧
    (∀ (v : GoValue) (rest : List GoValue) (ts : String) (idx : Nat)
       (acc : List (String × ExecBindParameter)),
       goTypeToSnowflake v ts = "ARRAY" →
       execBindLoop (v :: rest) ts idx acc =
         execBindLoop rest ts (idx + 1)
           (acc ++ [(toString idx,
                     ⟨(arrayToString v).1, (arrayToString v).2⟩)])) ∧
    (∀ (v : GoValue) (rest : List GoValue) (ts : String) (idx : Nat)
       (acc : List (String × ExecBindParameter)) (v1 : String),
       goTypeToSnowflake v ts ≠ "CHANGE_TYPE" →
       goTypeToSnowflake v ts ≠ "ARRAY" →
       valueToString v ts = .ok v1 →
       execBindLoop (v :: rest) ts idx acc =
         execBindLoop rest ts (idx + 1)
           (acc ++ [(toString idx, ⟨goTypeToSnowflake v ts, v1⟩)])) ∧
    (∀ (bs : List GoValue) (entries : List (String × ExecBindParameter))
       (ts1 : String) (ps : List ExecBindParameter),
       bindEntriesSpec bs defaultTsMode = .ok ps →
       execBindings bs = .ok (entries, ts1) →
       entries = (slotKeysFrom 1 ps.length).zip ps ∧
       ts1 = bindFinalTs bs defaultTsMode) := by
  refine ⟨?_, ?_, ?_, ?_⟩
  · intro m rest ts idx acc
    simp [execBindLoop, goTypeToSnowflake, dataTypeMode]
  · intro v rest ts idx acc har
    have hct : goTypeToSnowflake v ts ≠ "CHANGE_TYPE" := by
      rw [har]; decide
    simp [execBindLoop, hct, har]
  · intro v rest ts idx acc v1 hct har hval
    simp [execBindLoop, hct, har, hval]
  · intro bs entries ts1 ps hspec hloop
    rw [execBindings, execBindLoop_spec bs defaultTsMode 1 [], hspec] at hloop
    simp only [List.nil_append, Except.ok.injEq, Prod.mk.injEq] at hloop
    exact ⟨hloop.1.symm, hloop.2.symm⟩

/-- C8 witness: all four arms at concrete values — a mode change
consuming no slot, an array entry, a text entry, and the full encoding
of a mixed list into slots 1‥3. -/
theorem exec_bindings_encoding_witness :
    execBindLoop [.changeType "TIMESTAMP_LTZ"] "TIMESTAMP_NTZ" 1 [] =
      execBindLoop [] "TIMESTAMP_LTZ" 1 [] ∧
    execBindLoop [.arrInt [1, 2]] "TIMESTAMP_NTZ" 2 [] =
      execBindLoop [] "TIMESTAMP_NTZ" 3 [("2", ⟨"ARRAY", "1,2"⟩)] ∧
    execBindLoop [.str "a"] "TIMESTAMP_NTZ" 3 [] =
      execBindLoop [] "TIMESTAMP_NTZ" 4 [("3", ⟨"TEXT", "a"⟩)] ∧
    ([("1", ⟨"FIXED", "7"⟩), ("2", ⟨"ARRAY", "1,2"⟩), ("3", ⟨"TEXT", "a"⟩)] :
        List (String × ExecBindParameter)) =
      (slotKeysFrom 1
        ([⟨"FIXED", "7"⟩, ⟨"ARRAY", "1,2"⟩, ⟨"TEXT", "a"⟩] :
            List ExecBindParameter).length).zip
        [⟨"FIXED", "7"⟩, ⟨"ARRAY", "1,2"⟩, ⟨"TEXT", "a"⟩] ∧
    "TIMESTAMP_LTZ" =
      bindFinalTs [.int 7, .changeType "TIMESTAMP_LTZ", .arrInt [1, 2], .str "a"]
        defaultTsMode := by
  have h4 := exec_bindings_encoding.2.2.2
    [.int 7, .changeType "TIMESTAMP_LTZ", .arrInt [1, 2], .str "a"]
    [("1", ⟨"FIXED", "7"⟩), ("2", ⟨"ARRAY", "1,2"⟩), ("3", ⟨"TEXT", "a"⟩)]
    "TIMESTAMP_LTZ"
    [⟨"FIXED", "7"⟩, ⟨"ARRAY", "1,2"⟩, ⟨"TEXT", "a"⟩] rfl rfl
  exact ⟨exec_bindings_encoding.1 "TIMESTAMP_LTZ" [] "TIMESTAMP_NTZ" 1 [],
    exec_bindings_encoding.2.1 (.arrInt [1, 2]) [] "TIMESTAMP_NTZ" 2 [] rfl,
    exec_bindings_encoding.2.2.1 (.str "a") [] "TIMESTAMP_NTZ" 3 [] "a"
      (by decide) (by decide) rfl,
    h4.1, h4.2⟩

/-! ## Claim C9 -/

/-- C9 counterexample: after `Close` releases the connection, `BeginTx`
with `ReadOnly` set fails with the read-only feature-not-supported
StructuredError, not with the bad-connection error, because the
read-only check precedes the nil-transport check. -/
theorem closed_conn_beginTx_readonly_not_badconn :
    Close conn0 (some (.transport "remote close failed")) =
      .ok ({ cfg := none, rest := false, SequenceCounter := 0,
             QueryID := "", SQLState := "" }, none, [.closeSession]) ∧
    (BeginTx { cfg := none, rest := false, SequenceCounter := 0,
               QueryID := "", SQLState := "" }
       ⟨sqlLevelDefault, true⟩ postFail).result =
      .err (.snowflake
        ⟨ErrNoReadOnlyTransaction, SQLStateFeatureNotSupported,
         errMsgNoReadOnlyTransaction, ""⟩) ∧
    (BeginTx { cfg := none, rest := false, SequenceCounter := 0,
               QueryID := "", SQLState := "" }
       ⟨sqlLevelDefault, true⟩ postFail).result ≠ .err .badConn := by
  decide

/-- C9 amended: `Close` stops the heartbeat (when one is running) before
the remote session-close call, releases the transport and config
references and returns nil even when that call fails; afterwards
`ExecContext`, `QueryContext`, `PrepareContext`, `Ping` and `BeginTx`
with default options fail with the bad-connection error, while `BeginTx`
with `ReadOnly` set fails with the read-only feature-not-supported
error, and `BeginTx` with a non-default isolation level fails with the
isolation feature-not-supported error, because both checks precede the
connection check. -/
theorem close_releases_and_subsequent_ops_fail
    (sc : SnowflakeConn) (cfg : Config) (closeErr : Option GoError)
    (hcfg : sc.cfg = some cfg) (hrest : sc.rest = true) :
    Close sc closeErr =
      .ok ({ sc with cfg := none, rest := false }, none,
           (if mapLookup cfg.Params sessionClientSessionKeepAlive = some "true"
            then [CloseEvent.heartBeatStop] else []) ++ [.closeSession]) ∧
    (∀ sc1 : SnowflakeConn, sc1.rest = false →
       (∀ ctx post fetch bs,
          ExecContext sc1 ctx post fetch bs = .err .badConn) ∧
       (∀ ctx post fetch bs,
          QueryContext sc1 ctx post fetch bs = .err .badConn) ∧
       (∀ q, PrepareContext sc1 q = .err .badConn) ∧
       (∀ ctx post, Ping sc1 ctx post = .err .badConn) ∧
       (∀ post, BeginTx sc1 ⟨sqlLevelDefault, false⟩ post =
          ⟨sc1, .err .badConn, false⟩) ∧
       (∀ post iso, BeginTx sc1 ⟨iso, true⟩ post =
          ⟨sc1,
           .err (.snowflake
             ⟨ErrNoReadOnlyTransaction, SQLStateFeatureNotSupported,
              errMsgNoReadOnlyTransaction, ""⟩), false⟩) ∧
       (∀ post iso, iso ≠ sqlLevelDefault →
          BeginTx sc1 ⟨iso, false⟩ post =
            ⟨sc1,
             .err (.snowflake
               ⟨ErrNoDefaultTransactionIsolationLevel,
                SQLStateFeatureNotSupported,
                errMsgNoDefaultTransactionIsolationLevel, ""⟩), false⟩)) := by
  constructor
  · simp only [Close, isClientSessionKeepAliveEnabled, hcfg, hrest]
    by_cases hka : mapLookup cfg.Params sessionClientSessionKeepAlive = some "true" <;>
      simp [hka]
  · intro sc1 h1
    refine ⟨?_, ?_, ?_, ?_, ?_, ?_, ?_⟩
    · intro ctx post fetch bs
      simp [ExecContext, h1]
    · intro ctx post fetch bs
      simp [QueryContext, h1]
    · intro q
      simp [PrepareContext, h1]
    · intro ctx post
      simp [Ping, h1]
    · intro post
      simp [BeginTx, h1]
    · intro post iso
      simp [BeginTx]
    · intro post iso hiso
      simp [BeginTx, hiso]

/-- C9 witness: closing the example connection produces the released
state, on which each public operation fails as amended. -/
theorem close_releases_and_subsequent_ops_fail_witness :
    Close conn0 (some (.transport "remote close failed")) =
      .ok ({ conn0 with cfg := none, rest := false }, none,
           (if mapLookup cfg0.Params sessionClientSessionKeepAlive = some "true"
            then [CloseEvent.heartBeatStop] else []) ++ [.closeSession]) ∧
    ExecContext closedConn .empty postFail fetchAllFail [] = .err .badConn ∧
    QueryContext closedConn .empty postFail fetchAllFail [] = .err .badConn ∧
    PrepareContext closedConn "SELECT 1" = .err .badConn ∧
    Ping closedConn .empty postFail = .err .badConn ∧
    BeginTx closedConn ⟨sqlLevelDefault, false⟩ postFail =
      ⟨closedConn, .err .badConn, false⟩ ∧
    BeginTx closedConn ⟨sqlLevelDefault, true⟩ postFail =
      ⟨closedConn,
       .err (.snowflake
         ⟨ErrNoReadOnlyTransaction, SQLStateFeatureNotSupported,
          errMsgNoReadOnlyTransaction, ""⟩), false⟩ ∧
    BeginTx closedConn ⟨5, false⟩ postFail =
      ⟨closedConn,
       .err (.snowflake
         ⟨ErrNoDefaultTransactionIsolationLevel, SQLStateFeatureNotSupported,
          errMsgNoDefaultTransactionIsolationLevel, ""⟩), false⟩ := by
  have h := close_releases_and_subsequent_ops_fail conn0 cfg0
    (some (.transport "remote close failed")) rfl rfl
  have h2 := h.2 closedConn rfl
  exact ⟨h.1, h2.1 .empty postFail fetchAllFail [], h2.2.1 .empty postFail fetchAllFail [],
    h2.2.2.1 "SELECT 1", h2.2.2.2.1 .empty postFail, h2.2.2.2.2.1 postFail,
    h2.2.2.2.2.2.1 postFail sqlLevelDefault,
    h2.2.2.2.2.2.2 postFail 5 (by decide)⟩

end Gosnowflake
